import Mathlib

/-!
Verification of the DANM admission-controller validators
(`pkg/netadmit/validators.go`) as a shallow embedding in Lean 4.

Conventions of the embedding:
* Go strings are Lean `String`s; Go `len` on strings (UTF-8 byte length)
  is modelled by `goLen`.
* IPv4 addresses (`net.IP` values that are four bytes long) are modelled
  as natural numbers below `2^32`; `uint32` arithmetic is explicit
  arithmetic modulo `2^32`.
* The Go standard-library address helpers (`net.ParseIP`, `net.ParseCIDR`,
  `IPNet.Contains`) and the ipam helpers (`Ip2int`, `Int2ip`) are external
  pure collaborators; they are modelled here for the IPv4 textual forms the
  validators exercise.  IPv6 literals parse to `none`, which `Contains`
  treats as lying in no IPv4 subnet — the same verdict Go's
  `IPNet.Contains` gives for a non-IPv4 address against an IPv4 subnet.
* Go `map[string]string` is modelled as `Option (List (String × String))`:
  `none` is a nil map, `some l` a non-nil map with entries `l`.  This keeps
  Go's observable distinction between a nil and an empty map
  (`routes != nil` in `validateIpFields` branches on exactly that).
* Each Go validator takes pointers and signals failure by returning a
  non-nil error; the only one that writes through its pointer is
  `validateAllocationPool` (the two pool bounds).  A validator is therefore
  embedded as a function returning the (possibly updated) candidate
  manifest together with an optional structured error.
-/

namespace Danm

/-! ## 32-bit words and bitwise operations -/

/-- Bitwise combination of the low `k` bits of two naturals, least
significant bit first.  With `k = 32` this is the `uint32` bitwise
operation used by the Go code. -/
def bitwise32 (f : Bool → Bool → Bool) : Nat → Nat → Nat → Nat
  | 0, _, _ => 0
  | k + 1, a, b =>
    2 * bitwise32 f k (a / 2) (b / 2) + (if f (a % 2 == 1) (b % 2 == 1) then 1 else 0)

/-- 32-bit bitwise AND (`&` on `uint32`). -/
def land32 (a b : Nat) : Nat := bitwise32 and 32 a b

/-- 32-bit bitwise OR (`|` on `uint32`). -/
def lor32 (a b : Nat) : Nat := bitwise32 or 32 a b

/-- 32-bit bitwise XOR (`^` binary on `uint32`). -/
def lxor32 (a b : Nat) : Nat := bitwise32 bne 32 a b

/-- 32-bit bitwise complement (unary `^` on `uint32`), as XOR with all ones. -/
def compl32 (a : Nat) : Nat := lxor32 a (2 ^ 32 - 1)

/-! ## The Go / ipam address library, modelled for IPv4 -/

/-- Splitting a character list at every occurrence of `sep`; mirrors the
splitting the Go parsers perform on `.` and `/`.  The result is always
non-empty. -/
def splitOnChar (sep : Char) : List Char → List (List Char)
  | [] => [[]]
  | c :: cs =>
    match splitOnChar sep cs with
    | g :: gs => if c = sep then [] :: g :: gs else (c :: g) :: gs
    | [] => if c = sep then [[], []] else [[c]]

/-- The numeric value of a decimal digit character, `none` otherwise. -/
def digitVal (c : Char) : Option Nat :=
  if '0' ≤ c ∧ c ≤ '9' then some (c.toNat - '0'.toNat) else none

/-- Accumulating decimal reading of a digit string (Go's `dtoi` loop). -/
def decimalAux : Nat → List Char → Option Nat
  | acc, [] => some acc
  | acc, c :: cs =>
    match digitVal c with
    | some d => decimalAux (acc * 10 + d) cs
    | none => none

/-- The value of a non-empty all-digit character list, `none` otherwise. -/
def decimalVal : List Char → Option Nat
  | [] => none
  | cs => decimalAux 0 cs

/-- One dotted-decimal field of an IPv4 literal, as accepted by Go's
`parseIPv4`/`dtoi`: decimal digits, value at most `0xFF`, and no leading
zero unless the field is exactly `"0"`.  (Go's `dtoi` cap at `0xFFFFFF`
rejects no additional strings here: the accumulated value is monotone in
the digits read, so any accepted field stays below the cap throughout.) -/
def ipv4Field (cs : List Char) : Option Nat :=
  match decimalVal cs with
  | some n =>
    if n ≤ 255 ∧ (cs.length = 1 ∨ cs.head? ≠ some '0') then some n else none
  | none => none

/-- Go `net.ParseIP` on the character list of an IPv4 dotted-decimal
literal: exactly four fields joined by `.`, the big-endian 32-bit value. -/
def parseIPv4Chars (cs : List Char) : Option Nat :=
  match splitOnChar '.' cs with
  | [a, b, c, d] =>
    match ipv4Field a, ipv4Field b, ipv4Field c, ipv4Field d with
    | some x, some y, some z, some w =>
      some (x * 2 ^ 24 + y * 2 ^ 16 + z * 2 ^ 8 + w)
    | _, _, _, _ => none
  | _ => none

/-- Model of `net.ParseIP` restricted to IPv4 literals (see module
conventions: IPv6 literals yield `none`). -/
def ParseIP (s : String) : Option Nat := parseIPv4Chars s.data

/-- Model of `net.CIDRMask ones 32` as a 32-bit word: `ones` leading one
bits.  For `ones ≤ 32` this is `2^32 - 2^(32-ones)`. -/
def CIDRMask (ones : Nat) : Nat := 2 ^ 32 - 2 ^ (32 - ones)

/-- Model of Go's `*net.IPNet` for an IPv4 subnet: the (already masked)
network address and the mask, both 32-bit words. -/
structure IPNet where
  IP : Nat
  Mask : Nat
deriving DecidableEq, Repr

/-- The prefix-length suffix of a CIDR literal, as accepted by Go's
`ParseCIDR`: a non-empty digit string (leading zeros permitted by `dtoi`)
whose value is at most 32. -/
def cidrOnes (cs : List Char) : Option Nat :=
  match decimalVal cs with
  | some n => if n ≤ 32 then some n else none
  | none => none

/-- Model of `net.ParseCIDR` on IPv4 CIDR literals `a.b.c.d/n`: the address
part before the first `/`, the decimal prefix length after it, and the
returned `IPNet` carries the masked network address, exactly as Go returns
`&IPNet{IP: ip.Mask(m), Mask: m}`. -/
def ParseCIDR (s : String) : Option IPNet :=
  match splitOnChar '/' s.data with
  | [a, m] =>
    match parseIPv4Chars a, cidrOnes m with
    | some ip, some n => some { IP := land32 ip (CIDRMask n), Mask := CIDRMask n }
    | _, _ => none
  | _ => none

/-- Model of Go's `IPNet.Contains` for an IPv4 subnet: a `none` address
(an unparsable or non-IPv4 string) is contained in no subnet; a parsed
address is contained when it agrees with the network address under the
mask. -/
def Contains (n : IPNet) (ip : Option Nat) : Bool :=
  match ip with
  | none => false
  | some a => land32 a n.Mask == land32 n.IP n.Mask

/-- Model of `ipam.Ip2int` on a four-byte IP: our IPv4 addresses already
are their big-endian 32-bit value. -/
def Ip2int (ip : Nat) : Nat := ip

/-- Model of `ipam.Int2ip`: a `uint32` argument reduced into the four-byte
range. -/
def Int2ip (n : Nat) : Nat := n % 2 ^ 32

/-- Model of `net.IP.String` on a four-byte IP: dotted decimal. -/
def ipString (ip : Nat) : String :=
  toString (ip / 2 ^ 24 % 256) ++ "." ++ toString (ip / 2 ^ 16 % 256) ++ "." ++
    toString (ip / 2 ^ 8 % 256) ++ "." ++ toString (ip % 256)

/-- `GetBroadcastAddress` from `validators.go`: the bitwise OR of the
(four-byte) network address with the bitwise complement of the mask. -/
def GetBroadcastAddress (subnet : IPNet) : Nat :=
  lor32 subnet.IP (compl32 subnet.Mask)

/-- `ipam.Ip2int (net.ParseIP s)` as the validators call it.  On an
unparsable string Go's `Ip2int` would panic on the nil IP; both call sites
in `validateAllocationPool` are guarded by a `Contains` check that already
failed for such a string, so the `none` branch is unreachable there and is
completed with `0`. -/
def ip2intParse (s : String) : Nat := (ParseIP s).getD 0

/-- Go `len` on a string: its UTF-8 byte length. -/
def goLen (s : String) : Nat := (s.data.map (fun c =>
  if c.toNat ≤ 0x7F then 1 else if c.toNat ≤ 0x7FF then 2
  else if c.toNat ≤ 0xFFFF then 3 else 4)).sum

/-! ## The manifest data model (`danmtypes.DanmNet`, relevant fields) -/

/-- `danmtypes.IpPool`: the allocation pool bounds. -/
structure IpPool where
  Start : String
  End : String
deriving DecidableEq, Repr

/-- The fields of `danmtypes.DanmNetOption` the validators read or write. -/
structure DanmNetOption where
  Cidr : String
  Net6 : String
  Routes : Option (List (String × String))
  Routes6 : Option (List (String × String))
  Pool : IpPool
  Alloc : String
  Vlan : Int
  Vxlan : Int
  Device : String
deriving DecidableEq, Repr

/-- The fields of `danmtypes.DanmNetSpec` the validators read. -/
structure DanmNetSpec where
  NetworkID : String
  AllowedTenants : Option (List String)
  Options : DanmNetOption
deriving DecidableEq, Repr

/-- `danmtypes.DanmNet`, restricted to its spec. -/
structure DanmNet where
  Spec : DanmNetSpec
deriving DecidableEq, Repr

/-- The manifest with its pool bounds replaced — the only write any
validator performs. -/
def withPool (m : DanmNet) (p : IpPool) : DanmNet :=
  { m with Spec := { m.Spec with Options := { m.Spec.Options with Pool := p } } }

/-- `admissionv1.Operation`. -/
inductive Operation where
  | Create
  | Update
  | Delete
  | Connect
deriving DecidableEq, Repr

/-- The structured validation errors; `message` reproduces the verbatim
Go error strings. -/
inductive ValidationError where
  | RoutesWithoutCidrError
  | InvalidCidrError (cidr : String)
  | GatewayOutsideCidrError (gw cidr : String)
  | AllocPresetOnCreateError
  | PoolWithoutCidrError
  | InvalidCidrParameterError (cidr : String)
  | PoolOutsideCidrError
  | PoolInvertedError (startAddr endAddr : String)
  | VlanVxlanConflictError
  | MissingNetworkIdError
  | NetworkIdTooLongError
  | AllowedTenantsNotPermittedError
  | ManualDeviceOrTagOnCreateError
  | ManualDeviceOrTagOnUpdateError
deriving DecidableEq, Repr

/-- The verbatim Go error message of each validation error. -/
def ValidationError.message : ValidationError → String
  | .RoutesWithoutCidrError => "IP routes cannot be defined for a L2 network"
  | .InvalidCidrError cidr => "Invalid CIDR: " ++ cidr
  | .GatewayOutsideCidrError gw cidr =>
      "Specified GW address:" ++ gw ++ " is not part of CIDR:" ++ cidr
  | .AllocPresetOnCreateError => "Allocation bitmask shall not be manually defined upon creation!"
  | .PoolWithoutCidrError => "Allocation pool cannot be defined without CIDR!"
  | .InvalidCidrParameterError cidr => "Invalid CIDR parameter: " ++ cidr
  | .PoolOutsideCidrError => "Allocation pool is outside of defined CIDR"
  | .PoolInvertedError s e =>
      "Allocation pool start:" ++ s ++ " is bigger than or equal to allocation pool end:" ++ e
  | .VlanVxlanConflictError => "VLAN ID and VxLAN ID parameters are mutually exclusive"
  | .MissingNetworkIdError => "Spec.NetworkID mandatory parameter is missing!"
  | .NetworkIdTooLongError =>
      "Spec.NetworkID cannot be longer than 12 characters (otherwise VLAN and VxLAN host interface creation might fail)!"
  | .AllowedTenantsNotPermittedError =>
      "AllowedTenants attribute is only valid for the ClusterNetwork API!"
  | .ManualDeviceOrTagOnCreateError =>
      "Manually configuring any one of host_device, vlan, or vxlan attributes is not allowed for TenantNetworks!"
  | .ManualDeviceOrTagOnUpdateError =>
      "Manually changing any one of host_device, vlan, or vxlan attributes is not allowed for TenantNetworks!"

/-- `Validator` from `validators.go`: a rule takes the previous and the
candidate manifest and the operation, and yields the (possibly updated)
candidate manifest with an optional error. -/
abbrev Validator := DanmNet → DanmNet → Operation → DanmNet × Option ValidationError

/-! ## The six validators -/

/-- `MaxNidLength` from `validators.go`. -/
def MaxNidLength : Nat := 12

/-- The loop body of `validateIpFields`: the first route whose gateway is
not contained in the subnet produces the error.  (Go iterates the map in
unspecified order; the entry list fixes one order.) -/
def firstBadGateway (ipnet : IPNet) (cidr : String) :
    List (String × String) → Option ValidationError
  | [] => none
  | (_, gw) :: rest =>
    if Contains ipnet (ParseIP gw) then firstBadGateway ipnet cidr rest
    else some (.GatewayOutsideCidrError gw cidr)

/-- `validateIpFields` from `validators.go`. -/
def validateIpFields (cidr : String) (routes : Option (List (String × String))) :
    Option ValidationError :=
  if cidr = "" then
    if routes ≠ none then some .RoutesWithoutCidrError else none
  else
    match ParseCIDR cidr with
    | none => some (.InvalidCidrError cidr)
    | some ipnet => firstBadGateway ipnet cidr (routes.getD [])

/-- `validateIpv4Fields` from `validators.go`. -/
def validateIpv4Fields (oldManifest newManifest : DanmNet) (opType : Operation) :
    DanmNet × Option ValidationError :=
  (newManifest, validateIpFields newManifest.Spec.Options.Cidr newManifest.Spec.Options.Routes)

/-- `validateIpv6Fields` from `validators.go`. -/
def validateIpv6Fields (oldManifest newManifest : DanmNet) (opType : Operation) :
    DanmNet × Option ValidationError :=
  (newManifest, validateIpFields newManifest.Spec.Options.Net6 newManifest.Spec.Options.Routes6)

/-- The pool start after the defaulting step of `validateAllocationPool`:
an empty user value becomes network address plus one (in `uint32`
arithmetic), rendered as a dotted-decimal string. -/
def defaultedStart (m : DanmNet) (ipnet : IPNet) : String :=
  if m.Spec.Options.Pool.Start = "" then ipString (Int2ip (Ip2int ipnet.IP + 1))
  else m.Spec.Options.Pool.Start

/-- The pool end after the defaulting step of `validateAllocationPool`:
an empty user value becomes broadcast address minus one.  The `uint32`
decrement `x - 1` is `(x + 2^32 - 1) % 2^32`. -/
def defaultedEnd (m : DanmNet) (ipnet : IPNet) : String :=
  if m.Spec.Options.Pool.End = "" then
    ipString (Int2ip (Ip2int (GetBroadcastAddress ipnet) + (2 ^ 32 - 1)))
  else m.Spec.Options.Pool.End

/-- The tail of `validateAllocationPool` once the CIDR has parsed: default
the bounds, write them back, then check containment and ordering. -/
def poolCheck (m : DanmNet) (ipnet : IPNet) : DanmNet × Option ValidationError :=
  let st := defaultedStart m ipnet
  let en := defaultedEnd m ipnet
  let m' := withPool m { Start := st, End := en }
  if !Contains ipnet (ParseIP st) || !Contains ipnet (ParseIP en) then
    (m', some .PoolOutsideCidrError)
  else if ip2intParse en ≤ ip2intParse st then
    (m', some (.PoolInvertedError st en))
  else
    (m', none)

/-- `validateAllocationPool` from `validators.go`. -/
def validateAllocationPool (oldManifest newManifest : DanmNet) (opType : Operation) :
    DanmNet × Option ValidationError :=
  if opType = .Create ∧ newManifest.Spec.Options.Alloc ≠ "" then
    (newManifest, some .AllocPresetOnCreateError)
  else if newManifest.Spec.Options.Cidr = "" then
    if newManifest.Spec.Options.Pool.Start ≠ "" ∨ newManifest.Spec.Options.Pool.End ≠ "" then
      (newManifest, some .PoolWithoutCidrError)
    else
      (newManifest, none)
  else
    match ParseCIDR newManifest.Spec.Options.Cidr with
    | none => (newManifest, some (.InvalidCidrParameterError newManifest.Spec.Options.Cidr))
    | some ipnet => poolCheck newManifest ipnet

/-- `validateVids` from `validators.go`. -/
def validateVids (oldManifest newManifest : DanmNet) (opType : Operation) :
    DanmNet × Option ValidationError :=
  let isVlanDefined : Bool := newManifest.Spec.Options.Vlan != 0
  let isVxlanDefined : Bool := newManifest.Spec.Options.Vxlan != 0
  if isVlanDefined && isVxlanDefined then
    (newManifest, some .VlanVxlanConflictError)
  else
    (newManifest, none)

/-- `validateNetworkId` from `validators.go` (`len` is the byte length). -/
def validateNetworkId (oldManifest newManifest : DanmNet) (opType : Operation) :
    DanmNet × Option ValidationError :=
  if newManifest.Spec.NetworkID = "" then
    (newManifest, some .MissingNetworkIdError)
  else if goLen newManifest.Spec.NetworkID > MaxNidLength then
    (newManifest, some .NetworkIdTooLongError)
  else
    (newManifest, none)

/-- `validateAbsenceOfAllowedTenants` from `validators.go`. -/
def validateAbsenceOfAllowedTenants (oldManifest newManifest : DanmNet) (opType : Operation) :
    DanmNet × Option ValidationError :=
  if newManifest.Spec.AllowedTenants ≠ none then
    (newManifest, some .AllowedTenantsNotPermittedError)
  else
    (newManifest, none)

/-- `validateTenantNetRules` from `validators.go`.  (Go writes two
separate `if` statements; the operation cannot be both `Create` and
`Update`, so the chained form is equivalent.) -/
def validateTenantNetRules (oldManifest newManifest : DanmNet) (opType : Operation) :
    DanmNet × Option ValidationError :=
  if opType = .Create ∧
      (newManifest.Spec.Options.Device ≠ "" ∨
       newManifest.Spec.Options.Vxlan ≠ 0 ∨
       newManifest.Spec.Options.Vlan ≠ 0) then
    (newManifest, some .ManualDeviceOrTagOnCreateError)
  else if opType = .Update ∧
      (newManifest.Spec.Options.Device ≠ oldManifest.Spec.Options.Device ∨
       newManifest.Spec.Options.Vxlan ≠ oldManifest.Spec.Options.Vxlan ∨
       newManifest.Spec.Options.Vlan ≠ oldManifest.Spec.Options.Vlan) then
    (newManifest, some .ManualDeviceOrTagOnUpdateError)
  else
    (newManifest, none)

/-! ## The rule registry -/

/-- `DanmNetMapping` from `validators.go`. -/
def DanmNetMapping : List Validator :=
  [validateIpv4Fields, validateIpv6Fields, validateAllocationPool, validateVids,
   validateNetworkId, validateAbsenceOfAllowedTenants]

/-- `ClusterNetMapping` from `validators.go`. -/
def ClusterNetMapping : List Validator :=
  [validateIpv4Fields, validateIpv6Fields, validateAllocationPool, validateVids,
   validateNetworkId]

/-- `TenantNetMapping` from `validators.go`. -/
def TenantNetMapping : List Validator :=
  [validateIpv4Fields, validateIpv6Fields, validateAllocationPool, validateNetworkId,
   validateAbsenceOfAllowedTenants, validateTenantNetRules]

/-- `danmValidationConfig` from `validators.go`: the kind-to-rule-list
registry. -/
def danmValidationConfig (kind : String) : Option (List Validator) :=
  if kind = "DanmNet" then some DanmNetMapping
  else if kind = "ClusterNetwork" then some ClusterNetMapping
  else if kind = "TenantNetwork" then some TenantNetMapping
  else none

/-- Running a rule list in order against the same candidate manifest (Go
mutates the candidate in place, so each rule sees the previous rules'
defaulting), stopping at the first error. -/
def runValidators : List Validator → DanmNet → DanmNet → Operation →
    DanmNet × Option ValidationError
  | [], _, newManifest, _ => (newManifest, none)
  | v :: vs, oldManifest, newManifest, op =>
    match v oldManifest newManifest op with
    | (m', none) => runValidators vs oldManifest m' op
    | (m', some e) => (m', some e)

/-! ## Concrete manifests for the witnesses and counterexamples -/

/-- An options block with every field unset. -/
def exampleOptions : DanmNetOption :=
  { Cidr := "", Net6 := "", Routes := none, Routes6 := none,
    Pool := { Start := "", End := "" }, Alloc := "", Vlan := 0, Vxlan := 0, Device := "" }

/-- A minimal layer-2 manifest. -/
def exampleManifest : DanmNet :=
  { Spec := { NetworkID := "net1", AllowedTenants := none, Options := exampleOptions } }

/-- Empty CIDR with a present-but-empty routes map. -/
def c1Manifest : DanmNet :=
  { Spec := { NetworkID := "net1", AllowedTenants := none,
              Options := { exampleOptions with Routes := some [] } } }

/-- A `10.0.0.0/24` network with both pool bounds unset. -/
def c2Manifest : DanmNet :=
  { Spec := { NetworkID := "net1", AllowedTenants := none,
              Options := { exampleOptions with Cidr := "10.0.0.0/24" } } }

/-- A `10.0.0.0/24` network with an inverted allocation pool. -/
def c3Manifest : DanmNet :=
  { Spec := { NetworkID := "net1", AllowedTenants := none,
              Options := { exampleOptions with
                           Cidr := "10.0.0.0/24",
                           Pool := { Start := "10.0.0.200", End := "10.0.0.100" } } } }

/-- A tenant manifest carrying both a vlan and a vxlan tag. -/
def c5Manifest : DanmNet :=
  { Spec := { NetworkID := "t1", AllowedTenants := none,
              Options := { exampleOptions with Vlan := 5, Vxlan := 7, Device := "eth0" } } }

/-- A tenant manifest attached to host device `eth0`. -/
def c6Old : DanmNet :=
  { Spec := { NetworkID := "t1", AllowedTenants := none,
              Options := { exampleOptions with Device := "eth0" } } }

/-- The same tenant manifest moved to host device `eth1`. -/
def c6New : DanmNet :=
  { Spec := { NetworkID := "t1", AllowedTenants := none,
              Options := { exampleOptions with Device := "eth1" } } }

/-- A `10.0.0.0/24` network with both pool bounds unset (frame witness). -/
def c7Manifest : DanmNet :=
  { Spec := { NetworkID := "net1", AllowedTenants := none,
              Options := { exampleOptions with Cidr := "10.0.0.0/24" } } }

/-- A network id of twelve two-byte characters. -/
def c9Manifest : DanmNet :=
  { Spec := { NetworkID := "αααααααααααα", AllowedTenants := none, Options := exampleOptions } }

/-- A network id of twelve ASCII characters. -/
def c9AsciiManifest : DanmNet :=
  { Spec := { NetworkID := "abcdefghijkl", AllowedTenants := none, Options := exampleOptions } }

/-- A network id of thirteen ASCII characters. -/
def c9LongManifest : DanmNet :=
  { Spec := { NetworkID := "abcdefghijklm", AllowedTenants := none, Options := exampleOptions } }

/-- A `10.0.0.0/24` network whose pool start is not an IP address at all. -/
def c10Manifest : DanmNet :=
  { Spec := { NetworkID := "net1", AllowedTenants := none,
              Options := { exampleOptions with
                           Cidr := "10.0.0.0/24",
                           Pool := { Start := "not-an-ip", End := "" } } } }

/-! ## Helper lemmas -/

set_option maxRecDepth 8192

/-- Replacing the pool twice keeps only the second replacement. -/
theorem withPool_withPool (m : DanmNet) (p q : IpPool) :
    withPool (withPool m p) q = withPool m q := rfl

/-- Replacing the pool with itself is the identity. -/
theorem withPool_self (m : DanmNet) : withPool m m.Spec.Options.Pool = m := rfl

/-- A dotted-decimal rendering is never the empty string. -/
theorem ipString_ne_empty (n : Nat) : ipString n ≠ "" := by
  intro h
  have h1 := congrArg String.length h
  have hdot : (".").length = 1 := rfl
  have hnil : ("" : String).length = 0 := rfl
  simp only [ipString, String.length_append, hdot, hnil] at h1
  omega

/-- The defaulted pool start is never empty. -/
theorem defaultedStart_ne_empty (m : DanmNet) (ipnet : IPNet) :
    defaultedStart m ipnet ≠ "" := by
  unfold defaultedStart
  split
  · exact ipString_ne_empty _
  · assumption

/-- The defaulted pool end is never empty. -/
theorem defaultedEnd_ne_empty (m : DanmNet) (ipnet : IPNet) :
    defaultedEnd m ipnet ≠ "" := by
  unfold defaultedEnd
  split
  · exact ipString_ne_empty _
  · assumption

/-- The empty string is not a CIDR. -/
theorem ParseCIDR_empty : ParseCIDR "" = none := rfl

/-- Unfolding one step of the rule chain. -/
theorem runValidators_cons (v : Validator) (vs : List Validator) (o m : DanmNet)
    (op : Operation) :
    runValidators (v :: vs) o m op =
      match v o m op with
      | (m', none) => runValidators vs o m' op
      | (m', some e) => (m', some e) := rfl

/-- A chain headed by `v` accepts exactly when `v` accepts and the rest of
the chain accepts the manifest `v` returned. -/
theorem runValidators_cons_none_iff (v : Validator) (vs : List Validator) (o m : DanmNet)
    (op : Operation) :
    (runValidators (v :: vs) o m op).2 = none ↔
      ((v o m op).2 = none ∧ (runValidators vs o (v o m op).1 op).2 = none) := by
  rw [runValidators_cons]
  rcases h : v o m op with ⟨m', e⟩
  cases e <;> simp [h]

/-- `validateIpFields` on an empty CIDR only inspects the nilness of the
routes map. -/
theorem validateIpFields_empty_cidr (routes : Option (List (String × String))) :
    validateIpFields "" routes = if routes ≠ none then some .RoutesWithoutCidrError else none :=
  rfl

/-- The first branch of `validateAllocationPool`: a manual allocation
bitmask on creation. -/
theorem validateAllocationPool_alloc (o m : DanmNet) (op : Operation)
    (h1 : op = .Create) (h2 : m.Spec.Options.Alloc ≠ "") :
    validateAllocationPool o m op = (m, some .AllocPresetOnCreateError) := by
  unfold validateAllocationPool
  rw [if_pos ⟨h1, h2⟩]

/-- Empty CIDR with a pool bound set: `PoolWithoutCidrError`. -/
theorem validateAllocationPool_noCidr_pool (o m : DanmNet) (op : Operation)
    (hA : ¬(op = .Create ∧ m.Spec.Options.Alloc ≠ "")) (hc : m.Spec.Options.Cidr = "")
    (hp : m.Spec.Options.Pool.Start ≠ "" ∨ m.Spec.Options.Pool.End ≠ "") :
    validateAllocationPool o m op = (m, some .PoolWithoutCidrError) := by
  unfold validateAllocationPool
  rw [if_neg hA, if_pos hc, if_pos hp]

/-- Empty CIDR with empty pool bounds: success, no write. -/
theorem validateAllocationPool_noCidr_ok (o m : DanmNet) (op : Operation)
    (hA : ¬(op = .Create ∧ m.Spec.Options.Alloc ≠ "")) (hc : m.Spec.Options.Cidr = "")
    (hs : m.Spec.Options.Pool.Start = "") (he : m.Spec.Options.Pool.End = "") :
    validateAllocationPool o m op = (m, none) := by
  unfold validateAllocationPool
  rw [if_neg hA, if_pos hc, if_neg (by simp [hs, he])]

/-- A non-empty CIDR that fails to parse: `InvalidCidrParameterError`. -/
theorem validateAllocationPool_badCidr (o m : DanmNet) (op : Operation)
    (hA : ¬(op = .Create ∧ m.Spec.Options.Alloc ≠ "")) (hc : m.Spec.Options.Cidr ≠ "")
    (hp : ParseCIDR m.Spec.Options.Cidr = none) :
    validateAllocationPool o m op =
      (m, some (.InvalidCidrParameterError m.Spec.Options.Cidr)) := by
  unfold validateAllocationPool
  rw [if_neg hA, if_neg hc]
  rw [hp]

/-- A CIDR that parses hands control to `poolCheck`. -/
theorem validateAllocationPool_parsed (o m : DanmNet) (op : Operation) (ipnet : IPNet)
    (hA : ¬(op = .Create ∧ m.Spec.Options.Alloc ≠ ""))
    (hp : ParseCIDR m.Spec.Options.Cidr = some ipnet) :
    validateAllocationPool o m op = poolCheck m ipnet := by
  have hc : m.Spec.Options.Cidr ≠ "" := by
    intro h
    rw [h, ParseCIDR_empty] at hp
    exact Option.noConfusion hp
  unfold validateAllocationPool
  rw [if_neg hA, if_neg hc]
  rw [hp]

/-- The manifest `poolCheck` returns carries the defaulted bounds, in every
branch. -/
theorem poolCheck_fst (m : DanmNet) (ipnet : IPNet) :
    (poolCheck m ipnet).1 =
      withPool m { Start := defaultedStart m ipnet, End := defaultedEnd m ipnet } := by
  unfold poolCheck
  dsimp only
  split
  · rfl
  · split <;> rfl

/-- `poolCheck` fails with the outside-CIDR error when a defaulted bound is
not contained in the subnet. -/
theorem poolCheck_outside (m : DanmNet) (ipnet : IPNet)
    (h : Contains ipnet (ParseIP (defaultedStart m ipnet)) = false ∨
         Contains ipnet (ParseIP (defaultedEnd m ipnet)) = false) :
    poolCheck m ipnet =
      (withPool m { Start := defaultedStart m ipnet, End := defaultedEnd m ipnet },
       some .PoolOutsideCidrError) := by
  unfold poolCheck
  dsimp only
  rcases h with h | h <;> simp [h]

/-- `poolCheck` fails with the inverted-pool error when both bounds are
contained but the end does not exceed the start. -/
theorem poolCheck_inverted (m : DanmNet) (ipnet : IPNet)
    (h1 : Contains ipnet (ParseIP (defaultedStart m ipnet)) = true)
    (h2 : Contains ipnet (ParseIP (defaultedEnd m ipnet)) = true)
    (h3 : ip2intParse (defaultedEnd m ipnet) ≤ ip2intParse (defaultedStart m ipnet)) :
    poolCheck m ipnet =
      (withPool m { Start := defaultedStart m ipnet, End := defaultedEnd m ipnet },
       some (.PoolInvertedError (defaultedStart m ipnet) (defaultedEnd m ipnet))) := by
  unfold poolCheck
  dsimp only
  simp [h1, h2, h3]

/-- `poolCheck` succeeds when both bounds are contained and the pool is not
inverted. -/
theorem poolCheck_ok (m : DanmNet) (ipnet : IPNet)
    (h1 : Contains ipnet (ParseIP (defaultedStart m ipnet)) = true)
    (h2 : Contains ipnet (ParseIP (defaultedEnd m ipnet)) = true)
    (h3 : ¬ ip2intParse (defaultedEnd m ipnet) ≤ ip2intParse (defaultedStart m ipnet)) :
    poolCheck m ipnet =
      (withPool m { Start := defaultedStart m ipnet, End := defaultedEnd m ipnet }, none) := by
  unfold poolCheck
  dsimp only
  simp [h1, h2, h3]

/-- The pool rule only ever rewrites the pool of the candidate manifest. -/
theorem validateAllocationPool_fst_frame (o m : DanmNet) (op : Operation) :
    ∃ p, (validateAllocationPool o m op).1 = withPool m p := by
  unfold validateAllocationPool
  split
  · exact ⟨m.Spec.Options.Pool, (withPool_self m).symm⟩
  · split
    · split
      · exact ⟨m.Spec.Options.Pool, (withPool_self m).symm⟩
      · exact ⟨m.Spec.Options.Pool, (withPool_self m).symm⟩
    · split
      · exact ⟨m.Spec.Options.Pool, (withPool_self m).symm⟩
      · rw [poolCheck_fst]
        exact ⟨_, rfl⟩

/-- `validateIpv4Fields` never touches the candidate manifest. -/
@[simp] theorem validateIpv4Fields_fst (o m : DanmNet) (op : Operation) :
    (validateIpv4Fields o m op).1 = m := rfl

/-- `validateIpv6Fields` never touches the candidate manifest. -/
@[simp] theorem validateIpv6Fields_fst (o m : DanmNet) (op : Operation) :
    (validateIpv6Fields o m op).1 = m := rfl

/-- `validateVids` never touches the candidate manifest. -/
@[simp] theorem validateVids_fst (o m : DanmNet) (op : Operation) :
    (validateVids o m op).1 = m := by
  unfold validateVids
  dsimp only
  split <;> rfl

/-- `validateNetworkId` never touches the candidate manifest. -/
@[simp] theorem validateNetworkId_fst (o m : DanmNet) (op : Operation) :
    (validateNetworkId o m op).1 = m := by
  unfold validateNetworkId
  split_ifs <;> rfl

/-- `validateAbsenceOfAllowedTenants` never touches the candidate manifest. -/
@[simp] theorem validateAbsenceOfAllowedTenants_fst (o m : DanmNet) (op : Operation) :
    (validateAbsenceOfAllowedTenants o m op).1 = m := by
  unfold validateAbsenceOfAllowedTenants
  split <;> rfl

/-- `validateTenantNetRules` never touches the candidate manifest. -/
@[simp] theorem validateTenantNetRules_fst (o m : DanmNet) (op : Operation) :
    (validateTenantNetRules o m op).1 = m := by
  unfold validateTenantNetRules
  split_ifs <;> rfl

/-- The gateway loop succeeds when every gateway is contained. -/
theorem firstBadGateway_none (ipnet : IPNet) (cidr : String) (l : List (String × String))
    (h : ∀ r ∈ l, Contains ipnet (ParseIP r.2) = true) :
    firstBadGateway ipnet cidr l = none := by
  induction l with
  | nil => rfl
  | cons a l ih =>
    unfold firstBadGateway
    rw [if_pos (h a (List.mem_cons_self a l))]
    exact ih fun r hr => h r (List.mem_cons_of_mem a hr)

/-- The gateway loop reports a gateway-outside-CIDR error when some
gateway is not contained. -/
theorem firstBadGateway_bad (ipnet : IPNet) (cidr : String) (l : List (String × String))
    (h : ∃ r ∈ l, Contains ipnet (ParseIP r.2) = false) :
    ∃ gw, firstBadGateway ipnet cidr l = some (.GatewayOutsideCidrError gw cidr) := by
  induction l with
  | nil => simp at h
  | cons a l ih =>
    unfold firstBadGateway
    by_cases ha : Contains ipnet (ParseIP a.2) = true
    · rw [if_pos ha]
      rcases h with ⟨r, hr, hrc⟩
      rcases List.mem_cons.mp hr with rfl | hr'
      · rw [ha] at hrc
        exact Bool.noConfusion hrc
      · exact ih ⟨r, hr', hrc⟩
    · rw [if_neg ha]
      exact ⟨a.2, rfl⟩

/-- `validateIpFields` on a CIDR that parses runs the gateway loop. -/
theorem validateIpFields_parsed (cidr : String) (routes : Option (List (String × String)))
    (ipnet : IPNet) (hp : ParseCIDR cidr = some ipnet) :
    validateIpFields cidr routes = firstBadGateway ipnet cidr (routes.getD []) := by
  have hc : cidr ≠ "" := by
    intro h
    rw [h, ParseCIDR_empty] at hp
    exact Option.noConfusion hp
  unfold validateIpFields
  rw [if_neg hc, hp]

/-- `validateIpFields` on a non-empty CIDR that does not parse. -/
theorem validateIpFields_badCidr (cidr : String) (routes : Option (List (String × String)))
    (hc : cidr ≠ "") (hp : ParseCIDR cidr = none) :
    validateIpFields cidr routes = some (.InvalidCidrError cidr) := by
  unfold validateIpFields
  rw [if_neg hc, hp]

/-- A rule chain whose members only ever rewrite the pool only ever
rewrites the pool. -/
theorem runValidators_fst_frame (vs : List Validator) (o : DanmNet) (op : Operation) :
    (∀ v ∈ vs, ∀ m, ∃ p, (v o m op).1 = withPool m p) →
    ∀ m, ∃ p, (runValidators vs o m op).1 = withPool m p := by
  induction vs with
  | nil =>
    intro _ m
    exact ⟨m.Spec.Options.Pool, (withPool_self m).symm⟩
  | cons v vs ih =>
    intro hvs m
    rw [runValidators_cons]
    obtain ⟨p, hp⟩ := hvs v (List.mem_cons_self v vs) m
    rcases h : v o m op with ⟨m', e⟩
    rw [h] at hp
    simp only at hp
    cases e with
    | some e => exact ⟨p, hp⟩
    | none =>
      obtain ⟨q, hq⟩ := ih (fun w hw m2 => hvs w (List.mem_cons_of_mem v hw) m2) m'
      refine ⟨q, ?_⟩
      dsimp only
      rw [hq, hp, withPool_withPool]

/-- Frame fact for every registered validator: each only ever rewrites the
pool of the candidate manifest. -/
theorem validator_fst_frame (v : Validator) (o : DanmNet) (op : Operation)
    (hv : v = validateIpv4Fields ∨ v = validateIpv6Fields ∨ v = validateAllocationPool ∨
          v = validateVids ∨ v = validateNetworkId ∨ v = validateAbsenceOfAllowedTenants ∨
          v = validateTenantNetRules) :
    ∀ m, ∃ p, (v o m op).1 = withPool m p := by
  intro m
  rcases hv with rfl | rfl | rfl | rfl | rfl | rfl | rfl
  · exact ⟨m.Spec.Options.Pool, by rw [validateIpv4Fields_fst, withPool_self]⟩
  · exact ⟨m.Spec.Options.Pool, by rw [validateIpv6Fields_fst, withPool_self]⟩
  · exact validateAllocationPool_fst_frame o m op
  · exact ⟨m.Spec.Options.Pool, by rw [validateVids_fst, withPool_self]⟩
  · exact ⟨m.Spec.Options.Pool, by rw [validateNetworkId_fst, withPool_self]⟩
  · exact ⟨m.Spec.Options.Pool, by rw [validateAbsenceOfAllowedTenants_fst, withPool_self]⟩
  · exact ⟨m.Spec.Options.Pool, by rw [validateTenantNetRules_fst, withPool_self]⟩

/-- Acceptance by a chain that starts with the four shared rules forces the
vlan/vxlan exclusivity check to have passed on the original vlan and vxlan
values (the pool rule leaves them untouched). -/
theorem chain_accept_vids (o m : DanmNet) (op : Operation) (vs : List Validator)
    (h : (runValidators
        (validateIpv4Fields :: validateIpv6Fields :: validateAllocationPool ::
          validateVids :: vs) o m op).2 = none) :
    ¬(m.Spec.Options.Vlan ≠ 0 ∧ m.Spec.Options.Vxlan ≠ 0) := by
  rw [runValidators_cons_none_iff] at h
  obtain ⟨-, h⟩ := h
  rw [validateIpv4Fields_fst] at h
  rw [runValidators_cons_none_iff] at h
  obtain ⟨-, h⟩ := h
  rw [validateIpv6Fields_fst] at h
  rw [runValidators_cons_none_iff] at h
  obtain ⟨-, h⟩ := h
  obtain ⟨p, hp⟩ := validateAllocationPool_fst_frame o m op
  rw [hp] at h
  rw [runValidators_cons_none_iff] at h
  obtain ⟨h1, -⟩ := h
  intro ⟨hv, hx⟩
  have hv' : (withPool m p).Spec.Options.Vlan ≠ 0 := hv
  have hx' : (withPool m p).Spec.Options.Vxlan ≠ 0 := hx
  unfold validateVids at h1
  rw [if_pos] at h1
  · exact Option.noConfusion h1
  · simp [bne_iff_ne, hv', hx']

/-- Acceptance by the tenant chain forces the tenant-restriction rule to
have passed on the original device/vlan/vxlan values. -/
theorem tenant_chain_accept (o m : DanmNet) (op : Operation)
    (h : (runValidators TenantNetMapping o m op).2 = none) :
    (op = .Create → m.Spec.Options.Device = "" ∧ m.Spec.Options.Vxlan = 0 ∧
      m.Spec.Options.Vlan = 0) ∧
    (op = .Update → m.Spec.Options.Device = o.Spec.Options.Device ∧
      m.Spec.Options.Vxlan = o.Spec.Options.Vxlan ∧
      m.Spec.Options.Vlan = o.Spec.Options.Vlan) := by
  unfold TenantNetMapping at h
  rw [runValidators_cons_none_iff] at h
  obtain ⟨-, h⟩ := h
  rw [validateIpv4Fields_fst] at h
  rw [runValidators_cons_none_iff] at h
  obtain ⟨-, h⟩ := h
  rw [validateIpv6Fields_fst] at h
  rw [runValidators_cons_none_iff] at h
  obtain ⟨-, h⟩ := h
  obtain ⟨p, hp⟩ := validateAllocationPool_fst_frame o m op
  rw [hp] at h
  rw [runValidators_cons_none_iff] at h
  obtain ⟨-, h⟩ := h
  rw [validateNetworkId_fst] at h
  rw [runValidators_cons_none_iff] at h
  obtain ⟨-, h⟩ := h
  rw [validateAbsenceOfAllowedTenants_fst] at h
  rw [runValidators_cons_none_iff] at h
  obtain ⟨h1, -⟩ := h
  unfold validateTenantNetRules at h1
  constructor
  · rintro rfl
    by_cases hc : (withPool m p).Spec.Options.Device ≠ "" ∨
        (withPool m p).Spec.Options.Vxlan ≠ 0 ∨ (withPool m p).Spec.Options.Vlan ≠ 0
    · rw [if_pos ⟨rfl, hc⟩] at h1
      exact Option.noConfusion h1
    · push_neg at hc
      exact hc
  · rintro rfl
    by_cases hc : (withPool m p).Spec.Options.Device ≠ o.Spec.Options.Device ∨
        (withPool m p).Spec.Options.Vxlan ≠ o.Spec.Options.Vxlan ∨
        (withPool m p).Spec.Options.Vlan ≠ o.Spec.Options.Vlan
    · rw [if_neg (by rintro ⟨h', -⟩; exact Operation.noConfusion h'), if_pos ⟨rfl, hc⟩] at h1
      exact Option.noConfusion h1
    · push_neg at hc
      exact hc

/-- `validateIpv4Fields` checks the IPv4 CIDR against the IPv4 routes. -/
theorem validateIpv4Fields_snd (o m : DanmNet) (op : Operation) :
    (validateIpv4Fields o m op).2 =
      validateIpFields m.Spec.Options.Cidr m.Spec.Options.Routes := rfl

/-- `validateIpv6Fields` checks the IPv6 CIDR against the IPv6 routes. -/
theorem validateIpv6Fields_snd (o m : DanmNet) (op : Operation) :
    (validateIpv6Fields o m op).2 =
      validateIpFields m.Spec.Options.Net6 m.Spec.Options.Routes6 := rfl

/-- The written-back pool is the replacement pool. -/
@[simp] theorem withPool_Start (m : DanmNet) (p : IpPool) :
    (withPool m p).Spec.Options.Pool.Start = p.Start := rfl

/-- The written-back pool is the replacement pool. -/
@[simp] theorem withPool_End (m : DanmNet) (p : IpPool) :
    (withPool m p).Spec.Options.Pool.End = p.End := rfl

/-- The vlan/vxlan exclusivity check, with its boolean guard expressed as a
proposition. -/
theorem validateVids_snd (o m : DanmNet) (op : Operation) :
    (validateVids o m op).2 =
      if m.Spec.Options.Vlan ≠ 0 ∧ m.Spec.Options.Vxlan ≠ 0 then
        some .VlanVxlanConflictError
      else none := by
  unfold validateVids
  dsimp only
  by_cases h : m.Spec.Options.Vlan ≠ 0 ∧ m.Spec.Options.Vxlan ≠ 0
  · rw [if_pos (by simp [bne_iff_ne, h.1, h.2]), if_pos h]
  · rw [if_neg (by simpa [bne_iff_ne, Classical.not_and_iff_or_not_not] using h), if_neg h]

/-- Every validator in one of the three registered rule lists is one of the
seven rule functions. -/
theorem mapping_validators (vs : List Validator)
    (hvs : vs = DanmNetMapping ∨ vs = ClusterNetMapping ∨ vs = TenantNetMapping) :
    ∀ v ∈ vs, v = validateIpv4Fields ∨ v = validateIpv6Fields ∨ v = validateAllocationPool ∨
      v = validateVids ∨ v = validateNetworkId ∨ v = validateAbsenceOfAllowedTenants ∨
      v = validateTenantNetRules := by
  intro v hv
  rcases hvs with rfl | rfl | rfl <;>
    simp only [DanmNetMapping, ClusterNetMapping, TenantNetMapping, List.mem_cons,
      List.not_mem_nil, or_false] at hv <;>
    tauto

/-- `poolCheck` only depends on the manifest through the defaulted bounds
and the pool write-back. -/
theorem poolCheck_congr (m1 m2 : DanmNet) (ipnet : IPNet)
    (hst : defaultedStart m1 ipnet = defaultedStart m2 ipnet)
    (hen : defaultedEnd m1 ipnet = defaultedEnd m2 ipnet)
    (hw : withPool m1 { Start := defaultedStart m2 ipnet, End := defaultedEnd m2 ipnet } =
          withPool m2 { Start := defaultedStart m2 ipnet, End := defaultedEnd m2 ipnet }) :
    poolCheck m1 ipnet = poolCheck m2 ipnet := by
  unfold poolCheck
  dsimp only
  rw [hst, hen, hw]

/-! ## The claims -/

/-- C1, amended.  For both rule instances — the IPv4 pair `(cidr, routes)`
and the IPv6 pair `(net6, routes6)` — with an empty CIDR, the rule
succeeds exactly when the routes map is absent (nil), and fails with
`RoutesWithoutCidrError` whenever the map is present, even when it is
present but empty.  (The original claim let a present-but-empty map
succeed; the code branches on nilness, not on emptiness.) -/
theorem c1_empty_cidr_routes_nilness (o m : DanmNet) (op : Operation) :
    (m.Spec.Options.Cidr = "" →
      (((validateIpv4Fields o m op).2 = none ↔ m.Spec.Options.Routes = none) ∧
       (m.Spec.Options.Routes ≠ none →
         (validateIpv4Fields o m op).2 = some .RoutesWithoutCidrError))) ∧
    (m.Spec.Options.Net6 = "" →
      (((validateIpv6Fields o m op).2 = none ↔ m.Spec.Options.Routes6 = none) ∧
       (m.Spec.Options.Routes6 ≠ none →
         (validateIpv6Fields o m op).2 = some .RoutesWithoutCidrError))) := by
  constructor
  · intro hc
    rw [validateIpv4Fields_snd, hc, validateIpFields_empty_cidr]
    cases hr : m.Spec.Options.Routes <;> simp
  · intro hc
    rw [validateIpv6Fields_snd, hc, validateIpFields_empty_cidr]
    cases hr : m.Spec.Options.Routes6 <;> simp

/-- C1 counterexample.  With an empty CIDR and a routes map that is present
but empty, the IPv4 rule instance fails with `RoutesWithoutCidrError`,
where the claim promises success for an empty routes mapping. -/
theorem c1_counterexample :
    c1Manifest.Spec.Options.Cidr = "" ∧
    c1Manifest.Spec.Options.Routes = some [] ∧
    (validateIpv4Fields c1Manifest c1Manifest .Create).2 =
      some .RoutesWithoutCidrError := by
  refine ⟨rfl, rfl, ?_⟩
  decide

/-- C1 witness: the amended rule at a concrete layer-2 manifest with no
routes at all (both instances succeed). -/
theorem c1_witness :
    (validateIpv4Fields exampleManifest exampleManifest .Create).2 = none ∧
    (validateIpv6Fields exampleManifest exampleManifest .Create).2 = none :=
  ⟨((c1_empty_cidr_routes_nilness exampleManifest exampleManifest .Create).1 rfl).1.mpr rfl,
   ((c1_empty_cidr_routes_nilness exampleManifest exampleManifest .Create).2 rfl).1.mpr rfl⟩

/-- C2.  When the CIDR parses (and the create-time alloc guard does not
fire), an empty `pool.start` is defaulted to the network address plus one
and an empty `pool.end` to the broadcast address minus one, the broadcast
address being the bitwise OR of the network address with the bitwise
complement of the mask; a non-empty bound is kept. -/
theorem c2_pool_defaulting (o m : DanmNet) (op : Operation) (ipnet : IPNet)
    (hA : ¬(op = .Create ∧ m.Spec.Options.Alloc ≠ ""))
    (hp : ParseCIDR m.Spec.Options.Cidr = some ipnet) :
    ((validateAllocationPool o m op).1.Spec.Options.Pool.Start =
        if m.Spec.Options.Pool.Start = "" then ipString (Int2ip (Ip2int ipnet.IP + 1))
        else m.Spec.Options.Pool.Start) ∧
    ((validateAllocationPool o m op).1.Spec.Options.Pool.End =
        if m.Spec.Options.Pool.End = "" then
          ipString (Int2ip (Ip2int (GetBroadcastAddress ipnet) + (2 ^ 32 - 1)))
        else m.Spec.Options.Pool.End) ∧
    GetBroadcastAddress ipnet = lor32 ipnet.IP (compl32 ipnet.Mask) := by
  rw [validateAllocationPool_parsed o m op ipnet hA hp, poolCheck_fst]
  exact ⟨rfl, rfl, rfl⟩

/-- C2 witness: for `10.0.0.0/24` with both bounds empty the defaulted
start is `10.0.0.1` and the defaulted end is `10.0.0.254`. -/
theorem c2_witness :
    (validateAllocationPool c2Manifest c2Manifest .Update).1.Spec.Options.Pool.Start =
      "10.0.0.1" ∧
    (validateAllocationPool c2Manifest c2Manifest .Update).1.Spec.Options.Pool.End =
      "10.0.0.254" := by
  have h := c2_pool_defaulting c2Manifest c2Manifest .Update
    { IP := 167772160, Mask := 4294967040 } (by decide) (by decide)
  refine ⟨?_, ?_⟩
  · rw [h.1]
    decide
  · rw [h.2.1]
    decide

/-- C3.  Failure modes of the allocation pool rule, absent a create-time
alloc failure: with an empty CIDR it fails with `PoolWithoutCidrError`
exactly when a bound is set (and succeeds when both are empty); with a
CIDR that parses, it fails with `PoolOutsideCidrError` when a defaulted
bound is not contained in the subnet, and — both bounds contained — fails
with `PoolInvertedError` when the end is numerically at most the start. -/
theorem c3_pool_failure_modes (o m : DanmNet) (op : Operation)
    (hA : ¬(op = .Create ∧ m.Spec.Options.Alloc ≠ "")) :
    (m.Spec.Options.Cidr = "" →
      ((m.Spec.Options.Pool.Start ≠ "" ∨ m.Spec.Options.Pool.End ≠ "" →
         (validateAllocationPool o m op).2 = some .PoolWithoutCidrError) ∧
       (m.Spec.Options.Pool.Start = "" → m.Spec.Options.Pool.End = "" →
         (validateAllocationPool o m op).2 = none))) ∧
    (∀ ipnet, ParseCIDR m.Spec.Options.Cidr = some ipnet →
      ((Contains ipnet (ParseIP (defaultedStart m ipnet)) = false ∨
        Contains ipnet (ParseIP (defaultedEnd m ipnet)) = false →
         (validateAllocationPool o m op).2 = some .PoolOutsideCidrError) ∧
       (Contains ipnet (ParseIP (defaultedStart m ipnet)) = true →
        Contains ipnet (ParseIP (defaultedEnd m ipnet)) = true →
        ip2intParse (defaultedEnd m ipnet) ≤ ip2intParse (defaultedStart m ipnet) →
         (validateAllocationPool o m op).2 =
           some (.PoolInvertedError (defaultedStart m ipnet) (defaultedEnd m ipnet))))) := by
  constructor
  · intro hc
    constructor
    · intro hp
      rw [validateAllocationPool_noCidr_pool o m op hA hc hp]
    · intro hs he
      rw [validateAllocationPool_noCidr_ok o m op hA hc hs he]
  · intro ipnet hp
    constructor
    · intro hout
      rw [validateAllocationPool_parsed o m op ipnet hA hp, poolCheck_outside m ipnet hout]
    · intro h1 h2 h3
      rw [validateAllocationPool_parsed o m op ipnet hA hp, poolCheck_inverted m ipnet h1 h2 h3]

/-- C3 witness: for `10.0.0.0/24` with pool start `10.0.0.200` and end
`10.0.0.100` the rule fails with `PoolInvertedError`. -/
theorem c3_witness :
    (validateAllocationPool c3Manifest c3Manifest .Update).2 =
      some (.PoolInvertedError "10.0.0.200" "10.0.0.100") := by
  have h := ((c3_pool_failure_modes c3Manifest c3Manifest .Update (by decide)).2
    { IP := 167772160, Mask := 4294967040 } (by decide)).2 (by decide) (by decide) (by decide)
  rw [h]
  decide

/-- C4.  For a non-empty CIDR: the rule fails with `InvalidCidrError` when
the CIDR does not parse; when it parses, the rule reports a
`GatewayOutsideCidrError` if some route gateway is not contained in the
subnet, and succeeds when every route gateway is contained. -/
theorem c4_nonempty_cidr_rule (cidr : String) (routes : Option (List (String × String)))
    (hc : cidr ≠ "") :
    (ParseCIDR cidr = none →
      validateIpFields cidr routes = some (.InvalidCidrError cidr)) ∧
    (∀ ipnet, ParseCIDR cidr = some ipnet →
      ((∃ r ∈ routes.getD [], Contains ipnet (ParseIP r.2) = false) →
        ∃ gw, validateIpFields cidr routes = some (.GatewayOutsideCidrError gw cidr)) ∧
      ((∀ r ∈ routes.getD [], Contains ipnet (ParseIP r.2) = true) →
        validateIpFields cidr routes = none)) := by
  constructor
  · intro hp
    exact validateIpFields_badCidr cidr routes hc hp
  · intro ipnet hp
    constructor
    · intro hbad
      rw [validateIpFields_parsed cidr routes ipnet hp]
      exact firstBadGateway_bad ipnet cidr _ hbad
    · intro hall
      rw [validateIpFields_parsed cidr routes ipnet hp]
      exact firstBadGateway_none ipnet cidr _ hall

/-- C4 witness: a valid CIDR with its gateway inside succeeds; an invalid
non-empty CIDR fails with `InvalidCidrError`. -/
theorem c4_witness :
    validateIpFields "10.0.0.0/24" (some [("0.0.0.0/0", "10.0.0.1")]) = none ∧
    validateIpFields "10.0.0.0" (some []) = some (.InvalidCidrError "10.0.0.0") :=
  ⟨((c4_nonempty_cidr_rule "10.0.0.0/24" (some [("0.0.0.0/0", "10.0.0.1")]) (by decide)).2
      { IP := 167772160, Mask := 4294967040 } (by decide)).2 (by decide),
   (c4_nonempty_cidr_rule "10.0.0.0" (some []) (by decide)).1 (by decide)⟩

/-- C5, amended.  The exclusivity rule fails with `VlanVxlanConflictError`
exactly when both vlan and vxlan are nonzero, and succeeds otherwise; every
manifest accepted by the `DanmNet` or `ClusterNetwork` rule list has at
most one tag set; for the `TenantNetwork` rule list, which omits the
exclusivity rule, acceptance on Create forces both tags to zero and
acceptance on Update forces them to equal the previous manifest's tags —
the invariant is preserved from the previous manifest, not established.
(The original claim extended the both-tags-never-nonzero invariant to every
tenant-kind acceptance; a tenant update whose previous manifest carries
both tags refutes it.) -/
theorem c5_vlan_vxlan_exclusivity (o m : DanmNet) (op : Operation) :
    ((validateVids o m op).2 = some .VlanVxlanConflictError ↔
      (m.Spec.Options.Vlan ≠ 0 ∧ m.Spec.Options.Vxlan ≠ 0)) ∧
    ((validateVids o m op).2 = none ↔
      ¬(m.Spec.Options.Vlan ≠ 0 ∧ m.Spec.Options.Vxlan ≠ 0)) ∧
    ((runValidators DanmNetMapping o m op).2 = none →
      ¬(m.Spec.Options.Vlan ≠ 0 ∧ m.Spec.Options.Vxlan ≠ 0)) ∧
    ((runValidators ClusterNetMapping o m op).2 = none →
      ¬(m.Spec.Options.Vlan ≠ 0 ∧ m.Spec.Options.Vxlan ≠ 0)) ∧
    ((runValidators TenantNetMapping o m .Create).2 = none →
      m.Spec.Options.Vlan = 0 ∧ m.Spec.Options.Vxlan = 0) ∧
    ((runValidators TenantNetMapping o m .Update).2 = none →
      m.Spec.Options.Vlan = o.Spec.Options.Vlan ∧
      m.Spec.Options.Vxlan = o.Spec.Options.Vxlan) := by
  refine ⟨?_, ?_, ?_, ?_, ?_, ?_⟩
  · rw [validateVids_snd]
    split_ifs with h <;> simp [h]
  · rw [validateVids_snd]
    split_ifs with h <;> simp [h]
  · intro h
    exact chain_accept_vids o m op [validateNetworkId, validateAbsenceOfAllowedTenants] h
  · intro h
    exact chain_accept_vids o m op [validateNetworkId] h
  · intro h
    have hx := (tenant_chain_accept o m .Create h).1 rfl
    exact ⟨hx.2.2, hx.2.1⟩
  · intro h
    have hx := (tenant_chain_accept o m .Update h).2 rfl
    exact ⟨hx.2.2, hx.2.1⟩

/-- C5 counterexample.  `TenantNetwork` is a registered kind, its rule list
omits the exclusivity rule, and an update whose candidate keeps the
previous manifest's vlan 5 and vxlan 7 is accepted by the full tenant rule
list with both tags nonzero. -/
theorem c5_counterexample :
    danmValidationConfig "TenantNetwork" = some TenantNetMapping ∧
    (runValidators TenantNetMapping c5Manifest c5Manifest .Update).2 = none ∧
    c5Manifest.Spec.Options.Vlan ≠ 0 ∧ c5Manifest.Spec.Options.Vxlan ≠ 0 :=
  ⟨rfl, by decide, by decide, by decide⟩

/-- C5 witness: the exclusivity rule passes a vlan-only manifest, and a
manifest accepted by the `DanmNet` rule list has at most one tag. -/
theorem c5_witness :
    (validateVids exampleManifest exampleManifest .Create).2 = none ∧
    ¬(exampleManifest.Spec.Options.Vlan ≠ 0 ∧ exampleManifest.Spec.Options.Vxlan ≠ 0) :=
  ⟨(c5_vlan_vxlan_exclusivity exampleManifest exampleManifest .Create).2.1.mpr (by decide),
   (c5_vlan_vxlan_exclusivity exampleManifest exampleManifest .Create).2.2.1 (by decide)⟩

/-- C6.  The tenant-restriction rule fails on Create with
`ManualDeviceOrTagOnCreateError` exactly when device, vlan or vxlan is
set; on Update it fails with `ManualDeviceOrTagOnUpdateError` exactly when
device, vlan or vxlan differs from the previous manifest; otherwise it
succeeds. -/
theorem c6_tenant_restriction (o m : DanmNet) (op : Operation) :
    ((validateTenantNetRules o m op).2 = some .ManualDeviceOrTagOnCreateError ↔
      (op = .Create ∧ (m.Spec.Options.Device ≠ "" ∨ m.Spec.Options.Vxlan ≠ 0 ∨
        m.Spec.Options.Vlan ≠ 0))) ∧
    ((validateTenantNetRules o m op).2 = some .ManualDeviceOrTagOnUpdateError ↔
      (op = .Update ∧ (m.Spec.Options.Device ≠ o.Spec.Options.Device ∨
        m.Spec.Options.Vxlan ≠ o.Spec.Options.Vxlan ∨
        m.Spec.Options.Vlan ≠ o.Spec.Options.Vlan))) ∧
    ((validateTenantNetRules o m op).2 = none ↔
      (¬(op = .Create ∧ (m.Spec.Options.Device ≠ "" ∨ m.Spec.Options.Vxlan ≠ 0 ∨
           m.Spec.Options.Vlan ≠ 0)) ∧
       ¬(op = .Update ∧ (m.Spec.Options.Device ≠ o.Spec.Options.Device ∨
           m.Spec.Options.Vxlan ≠ o.Spec.Options.Vxlan ∨
           m.Spec.Options.Vlan ≠ o.Spec.Options.Vlan)))) := by
  unfold validateTenantNetRules
  split_ifs with h1 h2 <;> simp_all

/-- C6 witness: a tenant update that moves the device from `eth0` to
`eth1` fails with `ManualDeviceOrTagOnUpdateError`. -/
theorem c6_witness :
    (validateTenantNetRules c6Old c6New .Update).2 =
      some .ManualDeviceOrTagOnUpdateError :=
  (c6_tenant_restriction c6Old c6New .Update).2.1.mpr ⟨rfl, Or.inl (by decide)⟩

/-- C7.  Frame of the rule chain: the five pure rules and the
tenant-restriction rule return the candidate manifest unchanged; the
allocation pool rule rewrites at most the pool, and a pool bound changes
only when it was empty and the CIDR is non-empty and parses (in which case
it receives its defaulted value); consequently a full registered rule
chain changes nothing outside the pool, on success and on error returns
alike.  (The previous manifest is read-only throughout: no rule returns a
modified previous manifest.) -/
theorem c7_frame_effects (o m : DanmNet) (op : Operation) :
    (validateIpv4Fields o m op).1 = m ∧
    (validateIpv6Fields o m op).1 = m ∧
    (validateVids o m op).1 = m ∧
    (validateNetworkId o m op).1 = m ∧
    (validateAbsenceOfAllowedTenants o m op).1 = m ∧
    (validateTenantNetRules o m op).1 = m ∧
    (∃ p, (validateAllocationPool o m op).1 = withPool m p) ∧
    ((validateAllocationPool o m op).1.Spec.Options.Pool.Start ≠
        m.Spec.Options.Pool.Start →
      m.Spec.Options.Pool.Start = "" ∧ m.Spec.Options.Cidr ≠ "" ∧
      ∃ ipnet, ParseCIDR m.Spec.Options.Cidr = some ipnet ∧
        (validateAllocationPool o m op).1.Spec.Options.Pool.Start =
          ipString (Int2ip (Ip2int ipnet.IP + 1))) ∧
    ((validateAllocationPool o m op).1.Spec.Options.Pool.End ≠
        m.Spec.Options.Pool.End →
      m.Spec.Options.Pool.End = "" ∧ m.Spec.Options.Cidr ≠ "" ∧
      ∃ ipnet, ParseCIDR m.Spec.Options.Cidr = some ipnet ∧
        (validateAllocationPool o m op).1.Spec.Options.Pool.End =
          ipString (Int2ip (Ip2int (GetBroadcastAddress ipnet) + (2 ^ 32 - 1)))) ∧
    (∀ vs, vs = DanmNetMapping ∨ vs = ClusterNetMapping ∨ vs = TenantNetMapping →
      ∃ p, (runValidators vs o m op).1 = withPool m p) := by
  refine ⟨validateIpv4Fields_fst o m op, validateIpv6Fields_fst o m op,
    validateVids_fst o m op, validateNetworkId_fst o m op,
    validateAbsenceOfAllowedTenants_fst o m op, validateTenantNetRules_fst o m op,
    validateAllocationPool_fst_frame o m op, ?_, ?_, ?_⟩
  · intro hne
    by_cases hA : op = .Create ∧ m.Spec.Options.Alloc ≠ ""
    · rw [validateAllocationPool_alloc o m op hA.1 hA.2] at hne
      exact absurd rfl hne
    · by_cases hc : m.Spec.Options.Cidr = ""
      · by_cases hb : m.Spec.Options.Pool.Start ≠ "" ∨ m.Spec.Options.Pool.End ≠ ""
        · rw [validateAllocationPool_noCidr_pool o m op hA hc hb] at hne
          exact absurd rfl hne
        · push_neg at hb
          rw [validateAllocationPool_noCidr_ok o m op hA hc hb.1 hb.2] at hne
          exact absurd rfl hne
      · cases hcp : ParseCIDR m.Spec.Options.Cidr with
        | none =>
          rw [validateAllocationPool_badCidr o m op hA hc hcp] at hne
          exact absurd rfl hne
        | some ipnet =>
          rw [validateAllocationPool_parsed o m op ipnet hA hcp, poolCheck_fst,
            withPool_Start] at hne ⊢
          by_cases hs : m.Spec.Options.Pool.Start = ""
          · refine ⟨hs, hc, ipnet, rfl, ?_⟩
            unfold defaultedStart
            rw [if_pos hs]
          · exfalso
            apply hne
            unfold defaultedStart
            rw [if_neg hs]
  · intro hne
    by_cases hA : op = .Create ∧ m.Spec.Options.Alloc ≠ ""
    · rw [validateAllocationPool_alloc o m op hA.1 hA.2] at hne
      exact absurd rfl hne
    · by_cases hc : m.Spec.Options.Cidr = ""
      · by_cases hb : m.Spec.Options.Pool.Start ≠ "" ∨ m.Spec.Options.Pool.End ≠ ""
        · rw [validateAllocationPool_noCidr_pool o m op hA hc hb] at hne
          exact absurd rfl hne
        · push_neg at hb
          rw [validateAllocationPool_noCidr_ok o m op hA hc hb.1 hb.2] at hne
          exact absurd rfl hne
      · cases hcp : ParseCIDR m.Spec.Options.Cidr with
        | none =>
          rw [validateAllocationPool_badCidr o m op hA hc hcp] at hne
          exact absurd rfl hne
        | some ipnet =>
          rw [validateAllocationPool_parsed o m op ipnet hA hcp, poolCheck_fst,
            withPool_End] at hne ⊢
          by_cases hs : m.Spec.Options.Pool.End = ""
          · refine ⟨hs, hc, ipnet, rfl, ?_⟩
            unfold defaultedEnd
            rw [if_pos hs]
          · exfalso
            apply hne
            unfold defaultedEnd
            rw [if_neg hs]
  · intro vs hvs
    exact runValidators_fst_frame vs o op
      (fun v hv m2 => validator_fst_frame v o op (mapping_validators vs hvs v hv) m2) m

/-- C7 witness: on a `10.0.0.0/24` manifest with empty bounds the pool rule
does change the pool start, and the frame theorem recovers that the start
was empty and the CIDR parses. -/
theorem c7_witness :
    (validateAllocationPool c7Manifest c7Manifest .Update).1.Spec.Options.Pool.Start ≠
      c7Manifest.Spec.Options.Pool.Start ∧
    c7Manifest.Spec.Options.Pool.Start = "" ∧ c7Manifest.Spec.Options.Cidr ≠ "" := by
  have hne : (validateAllocationPool c7Manifest c7Manifest .Update).1.Spec.Options.Pool.Start ≠
      c7Manifest.Spec.Options.Pool.Start := by decide
  have hc := (c7_frame_effects c7Manifest c7Manifest .Update).2.2.2.2.2.2.2.1 hne
  exact ⟨hne, hc.1, hc.2.1⟩

/-- C8.  The allocation pool rule is idempotent: run on its own result (the
manifest with defaults already applied) it neither changes the pool again
nor changes its verdict. -/
theorem c8_pool_idempotent (o m : DanmNet) (op : Operation) :
    validateAllocationPool o (validateAllocationPool o m op).1 op =
      validateAllocationPool o m op := by
  by_cases hA : op = .Create ∧ m.Spec.Options.Alloc ≠ ""
  · rw [validateAllocationPool_alloc o m op hA.1 hA.2]
    exact validateAllocationPool_alloc o m op hA.1 hA.2
  · by_cases hc : m.Spec.Options.Cidr = ""
    · by_cases hb : m.Spec.Options.Pool.Start ≠ "" ∨ m.Spec.Options.Pool.End ≠ ""
      · rw [validateAllocationPool_noCidr_pool o m op hA hc hb]
        exact validateAllocationPool_noCidr_pool o m op hA hc hb
      · push_neg at hb
        rw [validateAllocationPool_noCidr_ok o m op hA hc hb.1 hb.2]
        exact validateAllocationPool_noCidr_ok o m op hA hc hb.1 hb.2
    · cases hcp : ParseCIDR m.Spec.Options.Cidr with
      | none =>
        rw [validateAllocationPool_badCidr o m op hA hc hcp]
        exact validateAllocationPool_badCidr o m op hA hc hcp
      | some ipnet =>
        rw [validateAllocationPool_parsed o m op ipnet hA hcp]
        have hm1 : (poolCheck m ipnet).1 =
            withPool m { Start := defaultedStart m ipnet, End := defaultedEnd m ipnet } :=
          poolCheck_fst m ipnet
        have hA1 : ¬(op = .Create ∧ (poolCheck m ipnet).1.Spec.Options.Alloc ≠ "") := by
          rw [hm1]
          exact hA
        have hcp1 : ParseCIDR (poolCheck m ipnet).1.Spec.Options.Cidr = some ipnet := by
          rw [hm1]
          exact hcp
        rw [validateAllocationPool_parsed o (poolCheck m ipnet).1 op ipnet hA1 hcp1]
        have hst : defaultedStart (poolCheck m ipnet).1 ipnet = defaultedStart m ipnet := by
          show (if (poolCheck m ipnet).1.Spec.Options.Pool.Start = "" then
              ipString (Int2ip (Ip2int ipnet.IP + 1))
            else (poolCheck m ipnet).1.Spec.Options.Pool.Start) = defaultedStart m ipnet
          rw [hm1, withPool_Start, if_neg (defaultedStart_ne_empty m ipnet)]
        have hen : defaultedEnd (poolCheck m ipnet).1 ipnet = defaultedEnd m ipnet := by
          show (if (poolCheck m ipnet).1.Spec.Options.Pool.End = "" then
              ipString (Int2ip (Ip2int (GetBroadcastAddress ipnet) + (2 ^ 32 - 1)))
            else (poolCheck m ipnet).1.Spec.Options.Pool.End) = defaultedEnd m ipnet
          rw [hm1, withPool_End, if_neg (defaultedEnd_ne_empty m ipnet)]
        exact poolCheck_congr (poolCheck m ipnet).1 m ipnet hst hen
          (by rw [hm1, withPool_withPool])

/-- C9, amended.  The network identifier rule fails with
`MissingNetworkIdError` exactly when the id is empty, fails with
`NetworkIdTooLongError` exactly when the id's length in UTF-8 bytes — Go's
`len` — exceeds 12, and succeeds exactly when the id is non-empty with at
most 12 bytes.  For ASCII identifiers bytes and characters coincide, so an
id of 12 ASCII characters succeeds and one of 13 fails.  (The original
claim measured the limit in characters; a 12-character id of two-byte
characters refutes it.) -/
theorem c9_network_id (o m : DanmNet) (op : Operation) :
    ((validateNetworkId o m op).2 = some .MissingNetworkIdError ↔
      m.Spec.NetworkID = "") ∧
    ((validateNetworkId o m op).2 = some .NetworkIdTooLongError ↔
      (m.Spec.NetworkID ≠ "" ∧ goLen m.Spec.NetworkID > MaxNidLength)) ∧
    ((validateNetworkId o m op).2 = none ↔
      (m.Spec.NetworkID ≠ "" ∧ goLen m.Spec.NetworkID ≤ MaxNidLength)) := by
  unfold validateNetworkId
  split_ifs with h1 h2 <;> simp_all

/-- C9 counterexample.  A network id of exactly 12 characters, each two
UTF-8 bytes, is rejected with `NetworkIdTooLongError`, where the claim
promises success for every non-empty id of at most 12 characters. -/
theorem c9_counterexample :
    c9Manifest.Spec.NetworkID.length = 12 ∧ c9Manifest.Spec.NetworkID ≠ "" ∧
    (validateNetworkId c9Manifest c9Manifest .Create).2 =
      some .NetworkIdTooLongError :=
  ⟨by decide, by decide, by decide⟩

/-- C9 witness: a 12-ASCII-character id succeeds; a 13-ASCII-character id
fails with `NetworkIdTooLongError`. -/
theorem c9_witness :
    (validateNetworkId c9AsciiManifest c9AsciiManifest .Create).2 = none ∧
    (validateNetworkId c9LongManifest c9LongManifest .Create).2 =
      some .NetworkIdTooLongError :=
  ⟨(c9_network_id c9AsciiManifest c9AsciiManifest .Create).2.2.mpr ⟨by decide, by decide⟩,
   (c9_network_id c9LongManifest c9LongManifest .Create).2.1.mpr ⟨by decide, by decide⟩⟩

/-- C10.  With a CIDR that parses, an unparsable route gateway string is
contained in no subnet, so the IP-field rule reports the
gateway-outside-CIDR error; likewise an unparsable user-supplied pool
bound makes the pool rule report the pool-outside-CIDR error — malformed
address strings yield a validation error, not an unhandled failure. -/
theorem c10_unparsable_address_rejected :
    (∀ (cidr : String) (routes : Option (List (String × String))) (ipnet : IPNet),
      ParseCIDR cidr = some ipnet →
      (∃ r ∈ routes.getD [], ParseIP r.2 = none) →
      ∃ gw, validateIpFields cidr routes = some (.GatewayOutsideCidrError gw cidr)) ∧
    (∀ (o m : DanmNet) (op : Operation) (ipnet : IPNet),
      ¬(op = .Create ∧ m.Spec.Options.Alloc ≠ "") →
      ParseCIDR m.Spec.Options.Cidr = some ipnet →
      ((m.Spec.Options.Pool.Start ≠ "" ∧ ParseIP m.Spec.Options.Pool.Start = none) ∨
       (m.Spec.Options.Pool.End ≠ "" ∧ ParseIP m.Spec.Options.Pool.End = none)) →
      (validateAllocationPool o m op).2 = some .PoolOutsideCidrError) := by
  constructor
  · rintro cidr routes ipnet hp ⟨r, hr, hrp⟩
    rw [validateIpFields_parsed cidr routes ipnet hp]
    refine firstBadGateway_bad ipnet cidr _ ⟨r, hr, ?_⟩
    rw [hrp]
    rfl
  · intro o m op ipnet hA hp hbad
    have hout : Contains ipnet (ParseIP (defaultedStart m ipnet)) = false ∨
        Contains ipnet (ParseIP (defaultedEnd m ipnet)) = false := by
      rcases hbad with ⟨hne, hpp⟩ | ⟨hne, hpp⟩
      · left
        unfold defaultedStart
        rw [if_neg hne, hpp]
        rfl
      · right
        unfold defaultedEnd
        rw [if_neg hne, hpp]
        rfl
    rw [validateAllocationPool_parsed o m op ipnet hA hp, poolCheck_outside m ipnet hout]

/-- C10 witness: an unparsable gateway and an unparsable pool start on a
valid `10.0.0.0/24` network yield the respective containment errors. -/
theorem c10_witness :
    (∃ gw, validateIpFields "10.0.0.0/24" (some [("0.0.0.0/0", "not-an-ip")]) =
      some (.GatewayOutsideCidrError gw "10.0.0.0/24")) ∧
    (validateAllocationPool c10Manifest c10Manifest .Update).2 =
      some .PoolOutsideCidrError :=
  ⟨(c10_unparsable_address_rejected).1 "10.0.0.0/24" (some [("0.0.0.0/0", "not-an-ip")])
      { IP := 167772160, Mask := 4294967040 } (by decide)
      ⟨("0.0.0.0/0", "not-an-ip"), by simp, by decide⟩,
   (c10_unparsable_address_rejected).2 c10Manifest c10Manifest .Update
      { IP := 167772160, Mask := 4294967040 } (by decide) (by decide)
      (Or.inl ⟨by decide, by decide⟩)⟩

end Danm
